import Mathlib

/-!
Verification of the request pipeline in `djangoflow/core/views.py` (ActivFlow).

The views file wires HTTP verbs to a workflow/activity model.  We embed each
handler as a pure function from a per-request environment (the resolved
collaborators: registry, model type, bound form, current instance, access-guard
outcome) and the request data to an `Except Fault` result carrying the list of
collaborator calls the handler performed (its event trace) together with the
HTTP response.  `@transaction.atomic` is modelled by `committedEvents`: the
events of a handler that returns normally all commit together, while a fault
escaping the block rolls every write back.

The helper module `djangoflow/core/helpers.py` and the mixin module
`djangoflow/core/mixins.py` are not part of the sources; where a definition
depends on them it is modelled from the specification and marked as such in
its doc comment.  Everything else is translated directly from `views.py`.
-/

/-- Per-request faults.  `notFound` covers `UnknownWorkflowError` and
`MissingParameterError`, both propagated as framework-level not-found faults
(spec section 7); `missingKey` is the unhandled dictionary `KeyError` raised by
`request.POST[key]` on an absent key. -/
inductive Fault where
  | notFound
  | missingKey (key : String)
  deriving DecidableEq, Repr

/-- One collaborator call performed by a view handler: the access-guard check
(`self.check`), the workflow state-machine calls, `form.save()`, and the
generic delete.  The order of events in a handler trace is the order the
handler performs the calls. -/
inductive Event where
  | check
  | instantiate
  | initiate_request (actor : String)
  | assign_task (pk : String)
  | task_initiate
  | form_save
  | instance_update
  | instance_finish
  | task_submit (app : String) (actor : String) (decision : String)
  | task_rollback
  | delete
  deriving DecidableEq, Repr

/-- An HTTP response produced by a handler: a redirect to a URL, or a rendered
template together with the compiled error messages placed in its context
(empty when the context carries no `error_message`). -/
inductive Response where
  | redirect (url : String)
  | rendered (template : String) (errorMessage : List String)
  deriving DecidableEq, Repr

/-- A (possibly bound) Django form: its field errors and its cleaned data.
As in Django, the form is valid exactly when it has no field errors. -/
structure Form where
  errors : List (String × String)
  cleaned_data : List (String × String)
  deriving DecidableEq, Repr

/-- `form.is_valid()`: true exactly when the form accumulated no field
errors. -/
def Form.is_valid (f : Form) : Bool := f.errors.isEmpty

/-- The workflow-step entity type resolved for the request: its display title,
whether it is the workflow's initial step, and the identifier a freshly
instantiated record receives. -/
structure ModelType where
  title : String
  is_initial : Bool
  newId : Nat
  deriving DecidableEq, Repr

/-- An existing activity instance fetched for Update/Rollback requests. -/
structure ActivityInstance where
  id : Nat
  title : String
  deriving DecidableEq, Repr

/-- The request data a handler reads: the POST body (an association list, as
Django's `QueryDict` behaves for single-valued keys) and the authenticated
actor (`request.user`). -/
structure Request where
  POST : List (String × String)
  user : String

/-- The per-request environment: the registered application names, the entity
type and form schema the locator resolves for a registered application, the
activity instance at the routed primary key, and the outcome of the access
guard `self.check` (`none` allows continuation, `some r` is the denial
response returned as-is). -/
structure Env where
  apps : List String
  modelType : ModelType
  bindForm : List (String × String) → Option ActivityInstance → Form
  inst : ActivityInstance
  guard : Option Response

/-- `reverse('update', args=(app, title, id))` with the route pattern of spec
section 6: `/<app_name>/<model>/<pk>/update/`. -/
def reverse_update (app : String) (title : String) (id : Nat) : String :=
  "/" ++ app ++ "/" ++ title ++ "/" ++ toString id ++ "/update/"

/-- `reverse('workflow-detail', args=[app])` with the route pattern of spec
section 6: `/<app_name>/`. -/
def reverse_workflow_detail (app : String) : String :=
  "/" ++ app ++ "/"

/-- Modelled from the spec: `get_request_params` (the Parameter Resolver of
`djangoflow.core.helpers`, not under `src/`) extracts a routed parameter and
fails with `MissingParameterError` when the key is absent; per spec section 7
that error propagates as a framework-level not-found fault. -/
def get_request_params (key : String) (kwargs : List (String × String)) :
    Except Fault String :=
  match kwargs.lookup key with
  | some v => Except.ok v
  | none => Except.error Fault.notFound

/-- Modelled from the spec: `flow_config` (`djangoflow.core.helpers`, not under
`src/`) resolves the static workflow configuration of an application and fails
with `UnknownWorkflowError` (a not-found fault) when `app_name` is not
registered.  We expose only what `views.py` reads from it: the initial step's
entity type. -/
def flow_config (env : Env) (app_title : String) : Except Fault ModelType :=
  if env.apps.contains app_title then Except.ok env.modelType
  else Except.error Fault.notFound

/-- Modelled from the spec: `get_model` (the Model Locator of
`djangoflow.core.helpers`, not under `src/`) resolves the concrete
workflow-step entity type for the routed `(app_name, model)` and fails with
`UnknownWorkflowError` (a not-found fault) when the application is not
registered. -/
def get_model (env : Env) (kwargs : List (String × String)) :
    Except Fault ModelType := do
  let app_title ← get_request_params "app_name" kwargs
  if env.apps.contains app_title then pure env.modelType
  else Except.error Fault.notFound

/-- Modelled from the spec: `get_form_instance` (the Form Locator of
`djangoflow.core.helpers`, not under `src/`) resolves the input-validation
schema for the routed step and fails with `UnknownWorkflowError` (a not-found
fault) when the application is not registered.  The returned schema binds POST
data, optionally against an existing instance. -/
def get_form_instance (env : Env) (kwargs : List (String × String)) :
    Except Fault (List (String × String) → Option ActivityInstance → Form) := do
  let app_title ← get_request_params "app_name" kwargs
  if env.apps.contains app_title then pure env.bindForm
  else Except.error Fault.notFound

/-- Modelled from the spec: `get_model_instance` (`djangoflow.core.helpers`,
not under `src/`) fetches the activity instance addressed by the routed
parameters, failing with a not-found fault when the application is not
registered. -/
def get_model_instance (env : Env) (kwargs : List (String × String)) :
    Except Fault ActivityInstance := do
  let _model ← get_model env kwargs
  pure env.inst

/-- Modelled from the spec: `get_errors` (`djangoflow.core.helpers`, not under
`src/`) compiles the form's field errors into a list of `field: message`
strings for the template's `error_message` context entry. -/
def get_errors (errors : List (String × String)) : List String :=
  errors.map fun fe => fe.1 ++ ": " ++ fe.2

/-- Transaction semantics of `@transaction.atomic`: when the handler body
returns normally all its writes commit together; an exception escaping the
block rolls back every write, so nothing is committed. -/
def committedEvents (r : Except Fault (List Event × Response)) : List Event :=
  match r with
  | Except.ok (tr, _) => tr
  | Except.error _ => []

namespace WorkflowDetail

/-- `WorkflowDetail.get_context_data`: resolves `app_name`, looks the workflow
configuration up (failing not-found on an unregistered application), queries
the initial step's instances through the content-type registry and renders the
workflow listing. -/
def get_context_data (env : Env) (kwargs : List (String × String)) :
    Except Fault (List Event × Response) := do
  let app_title ← get_request_params "app_name" kwargs
  let _model ← flow_config env app_title
  pure ([], Response.rendered "core/workflow.html" [])

end WorkflowDetail

namespace ViewActivity

/-- `ViewActivity.dispatch`: resolves the model, runs the access guard and
either returns the denial or delegates to the detail rendering. -/
def dispatch (env : Env) (kwargs : List (String × String)) :
    Except Fault (List Event × Response) := do
  let _model ← get_model env kwargs
  match env.guard with
  | some denied => pure ([Event.check], denied)
  | none => pure ([Event.check], Response.rendered "core/detail.html" [])

end ViewActivity

namespace RollBackActivity

/-- `RollBackActivity.post` (wrapped in `@transaction.atomic`): resolves the
parameters and the instance, calls `instance.task.rollback()`, then runs the
access guard and either returns the denial or redirects to the workflow
detail page. -/
def post (env : Env) (kwargs : List (String × String)) :
    Except Fault (List Event × Response) := do
  let app_title ← get_request_params "app_name" kwargs
  let _inst ← get_model_instance env kwargs
  match env.guard with
  | some denied => pure ([Event.task_rollback, Event.check], denied)
  | none =>
      pure ([Event.task_rollback, Event.check],
        Response.redirect (reverse_workflow_detail app_title))

end RollBackActivity

namespace DeleteActivity

/-- `DeleteActivity.dispatch`: resolves the model and the success URL, then
delegates to the generic delete-and-redirect operation.  No access-guard call
occurs anywhere on this path. -/
def dispatch (env : Env) (kwargs : List (String × String)) :
    Except Fault (List Event × Response) := do
  let _model ← get_model env kwargs
  let app_title ← get_request_params "app_name" kwargs
  pure ([Event.delete], Response.redirect (reverse_workflow_detail app_title))

end DeleteActivity

namespace CreateActivity

/-- `CreateActivity.get`: builds the unbound form, runs the access guard and
either returns the denial or renders the create form. -/
def get (env : Env) (kwargs : List (String × String)) :
    Except Fault (List Event × Response) := do
  let _form ← get_form_instance env kwargs
  match env.guard with
  | some denied => pure ([Event.check], denied)
  | none => pure ([Event.check], Response.rendered "core/create.html" [])

/-- `CreateActivity.post` (wrapped in `@transaction.atomic`): resolves model,
form and `app_name`; on a valid form instantiates the entity from the cleaned
data, then either `initiate_request(request.user)` when the entity is the
initial step or `assign_task(pk)` followed by `task.initiate()` otherwise, and
redirects to the Update view of the new instance; on an invalid form
re-renders the create template with the compiled field errors. -/
def post (env : Env) (req : Request) (kwargs : List (String × String)) :
    Except Fault (List Event × Response) := do
  let model ← get_model env kwargs
  let bindF ← get_form_instance env kwargs
  let form := bindF req.POST none
  let app_title ← get_request_params "app_name" kwargs
  if form.is_valid then
    if model.is_initial then
      pure ([Event.instantiate, Event.initiate_request req.user],
        Response.redirect (reverse_update app_title model.title model.newId))
    else do
      let pk ← get_request_params "pk" kwargs
      pure ([Event.instantiate, Event.assign_task pk, Event.task_initiate],
        Response.redirect (reverse_update app_title model.title model.newId))
  else
    pure ([], Response.rendered "core/create.html" (get_errors form.errors))

end CreateActivity

namespace UpdateActivity

/-- `UpdateActivity.get`: fetches the instance, builds the bound form, runs
the access guard and either returns the denial or renders the update form. -/
def get (env : Env) (kwargs : List (String × String)) :
    Except Fault (List Event × Response) := do
  let _inst ← get_model_instance env kwargs
  let _form ← get_form_instance env kwargs
  match env.guard with
  | some denied => pure ([Event.check], denied)
  | none => pure ([Event.check], Response.rendered "core/update.html" [])

/-- `UpdateActivity.post` (wrapped in `@transaction.atomic`): fetches the
instance, resolves `app_name` and the form bound to the POST data and the
instance; on a valid form calls `form.save()`, then branches on the submit
control: `save` calls `instance.update()` and redirects back to the same
Update view; `finish` calls `instance.finish()`; any other control reads the
decision from `request.POST['submit']` (an unhandled `KeyError` when absent)
and calls `task.submit(app, actor, decision)`; the latter two redirect to the
workflow detail page.  On an invalid form it re-renders the update template
with the compiled field errors. -/
def post (env : Env) (req : Request) (kwargs : List (String × String)) :
    Except Fault (List Event × Response) := do
  let inst ← get_model_instance env kwargs
  let app_title ← get_request_params "app_name" kwargs
  let bindF ← get_form_instance env kwargs
  let form := bindF req.POST (some inst)
  if form.is_valid then
    if (req.POST.lookup "save").isSome then
      pure ([Event.form_save, Event.instance_update],
        Response.redirect (reverse_update app_title inst.title inst.id))
    else if (req.POST.lookup "finish").isSome then
      pure ([Event.form_save, Event.instance_finish],
        Response.redirect (reverse_workflow_detail app_title))
    else
      match req.POST.lookup "submit" with
      | some decision =>
          pure ([Event.form_save, Event.task_submit app_title req.user decision],
            Response.redirect (reverse_workflow_detail app_title))
      | none => Except.error (Fault.missingKey "submit")
  else
    pure ([], Response.rendered "core/update.html" (get_errors form.errors))

end UpdateActivity

/-- An input-validation schema that accepts every submission, used to exercise
the valid-form paths on concrete requests. -/
def acceptAllForm (data : List (String × String)) (_inst : Option ActivityInstance) :
    Form :=
  { errors := [], cleaned_data := data }

/-- An input-validation schema that rejects every submission with one field
error, used to exercise the invalid-form paths on concrete requests. -/
def rejectAllForm (_data : List (String × String)) (_inst : Option ActivityInstance) :
    Form :=
  { errors := [("reason", "This field is required.")], cleaned_data := [] }

/-- The denial response the access guard produces when it denies. -/
def deniedResponse : Response := Response.rendered "core/denied.html" []

/-- A concrete per-request environment over one registered application
`leave`, parameterised by the form schema, whether the routed step is the
initial one, and the access-guard outcome. -/
def exEnv (bf : List (String × String) → Option ActivityInstance → Form)
    (ini : Bool) (g : Option Response) : Env :=
  { apps := ["leave"],
    modelType := { title := "Leave", is_initial := ini, newId := 7 },
    bindForm := bf,
    inst := { id := 42, title := "LeaveApproval" },
    guard := g }

/-- Concrete routed parameters for the `leave` application. -/
def exKwargs : List (String × String) := [("app_name", "leave"), ("pk", "42")]

/-- A concrete request from actor `alice` with one posted field. -/
def exReq : Request := { POST := [("field", "v")], user := "alice" }

/-- A concrete request whose POST body fires the `save` control. -/
def exReqSave : Request :=
  { POST := [("field", "v"), ("save", "Save")], user := "alice" }

/-- A concrete request whose POST body fires the `finish` control. -/
def exReqFinish : Request :=
  { POST := [("field", "v"), ("finish", "Finish")], user := "alice" }

/-- A concrete request whose POST body fires a task-decision control. -/
def exReqSubmit : Request :=
  { POST := [("field", "v"), ("submit", "Approved")], user := "alice" }

/-- A concrete request whose POST body fires both `save` and `finish`. -/
def exReqSaveFinish : Request :=
  { POST := [("save", "Save"), ("finish", "Finish")], user := "alice" }

/-- Valid Create-POST on the initial step: the handler instantiates the entity
and calls `initiate_request(request.user)`, then redirects to the Update view
of the new instance.  Shared equation used by several results below. -/
theorem create_post_valid_initial_eq (env : Env) (req : Request)
    (kwargs : List (String × String)) (a : String)
    (ha : kwargs.lookup "app_name" = some a)
    (hreg : env.apps.contains a = true)
    (hvalid : (env.bindForm req.POST none).is_valid = true)
    (hini : env.modelType.is_initial = true) :
    CreateActivity.post env req kwargs =
      Except.ok ([Event.instantiate, Event.initiate_request req.user],
        Response.redirect
          (reverse_update a env.modelType.title env.modelType.newId)) := by
  have hmem : a ∈ env.apps := by simpa using hreg
  unfold CreateActivity.post get_model get_form_instance get_request_params
  simp [ha, hmem, hvalid, hini, Bind.bind, Except.bind, Pure.pure, Except.pure]

/-- Valid Create-POST on a non-initial step: the handler instantiates the
entity and calls `assign_task(pk)` then `task.initiate()`, then redirects to
the Update view of the new instance.  Shared equation used below. -/
theorem create_post_valid_noninitial_eq (env : Env) (req : Request)
    (kwargs : List (String × String)) (a : String) (p : String)
    (ha : kwargs.lookup "app_name" = some a)
    (hreg : env.apps.contains a = true)
    (hvalid : (env.bindForm req.POST none).is_valid = true)
    (hini : env.modelType.is_initial = false)
    (hpk : kwargs.lookup "pk" = some p) :
    CreateActivity.post env req kwargs =
      Except.ok ([Event.instantiate, Event.assign_task p, Event.task_initiate],
        Response.redirect
          (reverse_update a env.modelType.title env.modelType.newId)) := by
  have hmem : a ∈ env.apps := by simpa using hreg
  unfold CreateActivity.post get_model get_form_instance get_request_params
  simp [ha, hpk, hmem, hvalid, hini, Bind.bind, Except.bind, Pure.pure,
    Except.pure]

/-- Valid Update-POST with the `save` control: the handler saves the form,
calls `instance.update()` and redirects back to the same instance's Update
URL.  Shared equation used below. -/
theorem update_post_save_eq (env : Env) (req : Request)
    (kwargs : List (String × String)) (a : String)
    (ha : kwargs.lookup "app_name" = some a)
    (hreg : env.apps.contains a = true)
    (hvalid : (env.bindForm req.POST (some env.inst)).is_valid = true)
    (hsave : (req.POST.lookup "save").isSome = true) :
    UpdateActivity.post env req kwargs =
      Except.ok ([Event.form_save, Event.instance_update],
        Response.redirect (reverse_update a env.inst.title env.inst.id)) := by
  have hmem : a ∈ env.apps := by simpa using hreg
  unfold UpdateActivity.post get_model_instance get_model get_form_instance
    get_request_params
  simp [ha, hmem, hvalid, hsave, Bind.bind, Except.bind, Pure.pure, Except.pure]

/-- Every successful pass of `ViewActivity.dispatch` has the singleton
guard-check trace. -/
theorem viewActivity_ok_trace (env : Env) (kwargs : List (String × String))
    (tr : List Event) (resp : Response)
    (h : ViewActivity.dispatch env kwargs = Except.ok (tr, resp)) :
    tr = [Event.check] := by
  unfold ViewActivity.dispatch get_model get_request_params at h
  simp only [Bind.bind, Except.bind, Pure.pure, Except.pure] at h
  repeat' split at h
  all_goals simp_all

/-- Every successful pass of `CreateActivity.get` has the singleton
guard-check trace. -/
theorem create_get_ok_trace (env : Env) (kwargs : List (String × String))
    (tr : List Event) (resp : Response)
    (h : CreateActivity.get env kwargs = Except.ok (tr, resp)) :
    tr = [Event.check] := by
  unfold CreateActivity.get get_form_instance get_request_params at h
  simp only [Bind.bind, Except.bind, Pure.pure, Except.pure] at h
  repeat' split at h
  all_goals simp_all

/-- Every successful pass of `UpdateActivity.get` has the singleton
guard-check trace. -/
theorem update_get_ok_trace (env : Env) (kwargs : List (String × String))
    (tr : List Event) (resp : Response)
    (h : UpdateActivity.get env kwargs = Except.ok (tr, resp)) :
    tr = [Event.check] := by
  unfold UpdateActivity.get get_model_instance get_model get_form_instance
    get_request_params at h
  simp only [Bind.bind, Except.bind, Pure.pure, Except.pure] at h
  repeat' split at h
  all_goals simp_all

/-- Every successful pass of `RollBackActivity.post` has the trace rollback
followed by guard check. -/
theorem rollback_ok_trace (env : Env) (kwargs : List (String × String))
    (tr : List Event) (resp : Response)
    (h : RollBackActivity.post env kwargs = Except.ok (tr, resp)) :
    tr = [Event.task_rollback, Event.check] := by
  unfold RollBackActivity.post get_model_instance get_model
    get_request_params at h
  simp only [Bind.bind, Except.bind, Pure.pure, Except.pure] at h
  repeat' split at h
  all_goals simp_all

/-- Every successful pass of `DeleteActivity.dispatch` has the singleton
delete trace: no guard check anywhere. -/
theorem delete_ok_trace (env : Env) (kwargs : List (String × String))
    (tr : List Event) (resp : Response)
    (h : DeleteActivity.dispatch env kwargs = Except.ok (tr, resp)) :
    tr = [Event.delete] := by
  unfold DeleteActivity.dispatch get_model get_request_params at h
  simp only [Bind.bind, Except.bind, Pure.pure, Except.pure] at h
  repeat' split at h
  all_goals simp_all

/-- No successful pass of `CreateActivity.post` ever performs a guard
check. -/
theorem create_post_ok_no_check (env : Env) (req : Request)
    (kwargs : List (String × String)) (tr : List Event) (resp : Response)
    (h : CreateActivity.post env req kwargs = Except.ok (tr, resp)) :
    Event.check ∉ tr := by
  unfold CreateActivity.post get_model get_form_instance get_request_params at h
  simp only [Bind.bind, Except.bind, Pure.pure, Except.pure] at h
  repeat' split at h
  all_goals try simp_all
  all_goals (obtain ⟨h1, h2⟩ := h; subst h1; simp)

/-- No successful pass of `UpdateActivity.post` ever performs a guard
check. -/
theorem update_post_ok_no_check (env : Env) (req : Request)
    (kwargs : List (String × String)) (tr : List Event) (resp : Response)
    (h : UpdateActivity.post env req kwargs = Except.ok (tr, resp)) :
    Event.check ∉ tr := by
  unfold UpdateActivity.post get_model_instance get_model get_form_instance
    get_request_params at h
  simp only [Bind.bind, Except.bind, Pure.pure, Except.pure] at h
  repeat' split at h
  all_goals try simp_all
  all_goals (obtain ⟨h1, h2⟩ := h; subst h1; simp)

/-- C1 (counterexample): a concrete Create-POST request with a valid form and
a denying access guard.  Contrary to the claim, `CreateActivity.post` invokes
no guard check at all after validation: the transaction commits, the new
ActivityInstance is persisted (the instantiation and `initiate_request` calls
commit), and the guard's denial is never consulted and aborts nothing. -/
theorem C1_counterexample :
    (exEnv acceptAllForm true (some deniedResponse)).guard =
      some deniedResponse ∧
    (acceptAllForm exReq.POST none).is_valid = true ∧
    CreateActivity.post (exEnv acceptAllForm true (some deniedResponse)) exReq
        exKwargs =
      Except.ok ([Event.instantiate, Event.initiate_request "alice"],
        Response.redirect (reverse_update "leave" "Leave" 7)) ∧
    Event.check ∉ committedEvents
      (CreateActivity.post (exEnv acceptAllForm true (some deniedResponse))
        exReq exKwargs) ∧
    Event.instantiate ∈ committedEvents
      (CreateActivity.post (exEnv acceptAllForm true (some deniedResponse))
        exReq exKwargs) := by
  refine ⟨rfl, rfl, by rfl, by decide, by decide⟩

/-- C1 (amended): for every Create-POST request whose form input is valid, no
access guard check is invoked at any point; the transaction commits and the
new ActivityInstance is persisted, with the redirect to its Update view,
regardless of the access guard's outcome — a guard denial does not abort the
transaction because the guard is never consulted. -/
theorem C1_create_post_commits_without_guard (env : Env) (req : Request)
    (kwargs : List (String × String)) (a : String)
    (ha : kwargs.lookup "app_name" = some a)
    (hreg : env.apps.contains a = true)
    (hvalid : (env.bindForm req.POST none).is_valid = true)
    (hstep : env.modelType.is_initial = true ∨
      ∃ p, kwargs.lookup "pk" = some p) :
    (∃ tr, CreateActivity.post env req kwargs =
        Except.ok (tr, Response.redirect
          (reverse_update a env.modelType.title env.modelType.newId)) ∧
      Event.check ∉ tr ∧ Event.instantiate ∈ tr) ∧
    ∀ g, CreateActivity.post { env with guard := g } req kwargs =
      CreateActivity.post env req kwargs := by
  constructor
  · by_cases hini : env.modelType.is_initial = true
    · exact ⟨_, create_post_valid_initial_eq env req kwargs a ha hreg hvalid
        hini, by simp, by simp⟩
    · have hini' : env.modelType.is_initial = false := by simpa using hini
      rcases hstep with h | ⟨p, hpk⟩
      · exact absurd h hini
      · exact ⟨_, create_post_valid_noninitial_eq env req kwargs a p ha hreg
          hvalid hini' hpk, by simp, by simp⟩
  · intro g
    rfl

/-- Witness for the amended C1: the concrete denying-guard request commits
and persists the instance with no guard check in the trace. -/
theorem C1_amended_witness :
    ∃ tr, CreateActivity.post (exEnv acceptAllForm true (some deniedResponse))
        exReq exKwargs =
      Except.ok (tr, Response.redirect (reverse_update "leave" "Leave" 7)) ∧
      Event.check ∉ tr ∧ Event.instantiate ∈ tr :=
  (C1_create_post_commits_without_guard
    (exEnv acceptAllForm true (some deniedResponse)) exReq exKwargs "leave"
    (by decide) (by decide) (by decide) (Or.inl rfl)).1

/-- C2 (counterexample): a concrete Update-POST request with a valid form, the
`save` control and a denying access guard.  Contrary to the claim, the
handler returns successfully (mutating the instance) without ever invoking
the guard check. -/
theorem C2_counterexample :
    (exEnv acceptAllForm true (some deniedResponse)).guard =
      some deniedResponse ∧
    UpdateActivity.post (exEnv acceptAllForm true (some deniedResponse))
        exReqSave exKwargs =
      Except.ok ([Event.form_save, Event.instance_update],
        Response.redirect (reverse_update "leave" "LeaveApproval" 42)) ∧
    Event.check ∉ committedEvents
      (UpdateActivity.post (exEnv acceptAllForm true (some deniedResponse))
        exReqSave exKwargs) := by
  refine ⟨rfl, by rfl, by decide⟩

/-- C2 (amended): the access guard check is invoked before the handler
returns for the View dispatch, Create-GET, Update-GET and Rollback-POST
operations; but the Create-POST and Update-POST handlers never invoke the
guard, and neither does Delete. -/
theorem C2_guard_coverage :
    (∀ (env : Env) (kwargs : List (String × String)) (tr : List Event)
        (resp : Response),
      ViewActivity.dispatch env kwargs = Except.ok (tr, resp) →
        Event.check ∈ tr) ∧
    (∀ (env : Env) (kwargs : List (String × String)) (tr : List Event)
        (resp : Response),
      CreateActivity.get env kwargs = Except.ok (tr, resp) →
        Event.check ∈ tr) ∧
    (∀ (env : Env) (kwargs : List (String × String)) (tr : List Event)
        (resp : Response),
      UpdateActivity.get env kwargs = Except.ok (tr, resp) →
        Event.check ∈ tr) ∧
    (∀ (env : Env) (kwargs : List (String × String)) (tr : List Event)
        (resp : Response),
      RollBackActivity.post env kwargs = Except.ok (tr, resp) →
        Event.check ∈ tr) ∧
    (∀ (env : Env) (req : Request) (kwargs : List (String × String))
        (tr : List Event) (resp : Response),
      CreateActivity.post env req kwargs = Except.ok (tr, resp) →
        Event.check ∉ tr) ∧
    (∀ (env : Env) (req : Request) (kwargs : List (String × String))
        (tr : List Event) (resp : Response),
      UpdateActivity.post env req kwargs = Except.ok (tr, resp) →
        Event.check ∉ tr) ∧
    (∀ (env : Env) (kwargs : List (String × String)) (tr : List Event)
        (resp : Response),
      DeleteActivity.dispatch env kwargs = Except.ok (tr, resp) →
        Event.check ∉ tr) := by
  refine ⟨?_, ?_, ?_, ?_, ?_, ?_, ?_⟩
  · intro env kwargs tr resp h
    rw [viewActivity_ok_trace env kwargs tr resp h]
    simp
  · intro env kwargs tr resp h
    rw [create_get_ok_trace env kwargs tr resp h]
    simp
  · intro env kwargs tr resp h
    rw [update_get_ok_trace env kwargs tr resp h]
    simp
  · intro env kwargs tr resp h
    rw [rollback_ok_trace env kwargs tr resp h]
    simp
  · intro env req kwargs tr resp h
    exact create_post_ok_no_check env req kwargs tr resp h
  · intro env req kwargs tr resp h
    exact update_post_ok_no_check env req kwargs tr resp h
  · intro env kwargs tr resp h
    rw [delete_ok_trace env kwargs tr resp h]
    simp

/-- Witness for the amended C2: concrete successful passes of the View
dispatch (guard invoked) and of Create-POST and Delete (guard not
invoked). -/
theorem C2_amended_witness :
    (∃ tr resp, ViewActivity.dispatch (exEnv acceptAllForm true none)
        exKwargs = Except.ok (tr, resp) ∧ Event.check ∈ tr) ∧
    (∃ tr resp, CreateActivity.post (exEnv acceptAllForm true none) exReq
        exKwargs = Except.ok (tr, resp) ∧ Event.check ∉ tr) ∧
    (∃ tr resp, DeleteActivity.dispatch (exEnv acceptAllForm true none)
        exKwargs = Except.ok (tr, resp) ∧ Event.check ∉ tr) :=
  ⟨⟨[Event.check], Response.rendered "core/detail.html" [], by rfl,
    C2_guard_coverage.1 (exEnv acceptAllForm true none) exKwargs
      [Event.check] (Response.rendered "core/detail.html" []) (by rfl)⟩,
   ⟨[Event.instantiate, Event.initiate_request "alice"],
    Response.redirect (reverse_update "leave" "Leave" 7), by rfl,
    C2_guard_coverage.2.2.2.2.1 (exEnv acceptAllForm true none) exReq
      exKwargs [Event.instantiate, Event.initiate_request "alice"]
      (Response.redirect (reverse_update "leave" "Leave" 7)) (by rfl)⟩,
   ⟨[Event.delete], Response.redirect (reverse_workflow_detail "leave"),
    by rfl,
    C2_guard_coverage.2.2.2.2.2.2 (exEnv acceptAllForm true none) exKwargs
      [Event.delete] (Response.redirect (reverse_workflow_detail "leave"))
      (by rfl)⟩⟩

/-- C3: for every Create-POST request with valid form data, when the
instantiated entity is the workflow's initial step the handler calls
`initiate_request(request.user)` exactly once and never `assign_task`;
otherwise it calls `assign_task` with the routed `pk` and then
`task.initiate()`, in that order, exactly once each; in both cases the
response redirects to the Update view of the new instance.  The committed
trace is pinned exactly, which gives the counts and the order. -/
theorem C3_create_post_initial_and_noninitial (env : Env) (req : Request)
    (kwargs : List (String × String)) (a : String)
    (ha : kwargs.lookup "app_name" = some a)
    (hreg : env.apps.contains a = true)
    (hvalid : (env.bindForm req.POST none).is_valid = true) :
    (env.modelType.is_initial = true →
      CreateActivity.post env req kwargs =
        Except.ok ([Event.instantiate, Event.initiate_request req.user],
          Response.redirect
            (reverse_update a env.modelType.title env.modelType.newId))) ∧
    (∀ p, env.modelType.is_initial = false → kwargs.lookup "pk" = some p →
      CreateActivity.post env req kwargs =
        Except.ok ([Event.instantiate, Event.assign_task p, Event.task_initiate],
          Response.redirect
            (reverse_update a env.modelType.title env.modelType.newId))) :=
  ⟨fun hini => create_post_valid_initial_eq env req kwargs a ha hreg hvalid hini,
   fun p hini hpk =>
    create_post_valid_noninitial_eq env req kwargs a p ha hreg hvalid hini hpk⟩

/-- Witness for C3: both branches evaluated on concrete requests against the
registered application `leave`. -/
theorem C3_witness :
    CreateActivity.post (exEnv acceptAllForm true none) exReq exKwargs =
      Except.ok ([Event.instantiate, Event.initiate_request "alice"],
        Response.redirect (reverse_update "leave" "Leave" 7)) ∧
    CreateActivity.post (exEnv acceptAllForm false none) exReq exKwargs =
      Except.ok ([Event.instantiate, Event.assign_task "42", Event.task_initiate],
        Response.redirect (reverse_update "leave" "Leave" 7)) :=
  ⟨(C3_create_post_initial_and_noninitial (exEnv acceptAllForm true none) exReq
      exKwargs "leave" (by decide) (by decide) (by decide)).1 rfl,
   (C3_create_post_initial_and_noninitial (exEnv acceptAllForm false none) exReq
      exKwargs "leave" (by decide) (by decide) (by decide)).2 "42" rfl (by decide)⟩

/-- C4: for every Update-POST request with valid form data whose POST body
contains the `save` control, the handler persists the form's field changes
(`form.save()`), calls `instance.update()`, and redirects back to the same
instance's Update URL. -/
theorem C4_update_post_save (env : Env) (req : Request)
    (kwargs : List (String × String)) (a : String)
    (ha : kwargs.lookup "app_name" = some a)
    (hreg : env.apps.contains a = true)
    (hvalid : (env.bindForm req.POST (some env.inst)).is_valid = true)
    (hsave : (req.POST.lookup "save").isSome = true) :
    UpdateActivity.post env req kwargs =
      Except.ok ([Event.form_save, Event.instance_update],
        Response.redirect (reverse_update a env.inst.title env.inst.id)) :=
  update_post_save_eq env req kwargs a ha hreg hvalid hsave

/-- Witness for C4: the `save` control evaluated on a concrete request. -/
theorem C4_witness :
    UpdateActivity.post (exEnv acceptAllForm true none) exReqSave exKwargs =
      Except.ok ([Event.form_save, Event.instance_update],
        Response.redirect (reverse_update "leave" "LeaveApproval" 42)) :=
  C4_update_post_save (exEnv acceptAllForm true none) exReqSave exKwargs "leave"
    (by decide) (by decide) (by decide) (by decide)

/-- C5: for every Update-POST request with valid form data and no `save`
control: with the `finish` control the handler calls `instance.finish()`;
otherwise it reads the decision value from `request.POST['submit']` and calls
`task.submit(app, actor, decision)`; in both cases it redirects to the
Workflow Detail view of the instance's application. -/
theorem C5_update_post_finish_or_decision (env : Env) (req : Request)
    (kwargs : List (String × String)) (a : String)
    (ha : kwargs.lookup "app_name" = some a)
    (hreg : env.apps.contains a = true)
    (hvalid : (env.bindForm req.POST (some env.inst)).is_valid = true)
    (hnosave : req.POST.lookup "save" = none) :
    ((req.POST.lookup "finish").isSome = true →
      UpdateActivity.post env req kwargs =
        Except.ok ([Event.form_save, Event.instance_finish],
          Response.redirect (reverse_workflow_detail a))) ∧
    (∀ d, req.POST.lookup "finish" = none → req.POST.lookup "submit" = some d →
      UpdateActivity.post env req kwargs =
        Except.ok ([Event.form_save, Event.task_submit a req.user d],
          Response.redirect (reverse_workflow_detail a))) := by
  have hmem : a ∈ env.apps := by simpa using hreg
  unfold UpdateActivity.post get_model_instance get_model get_form_instance
    get_request_params
  constructor
  · intro hfin
    simp [ha, hmem, hvalid, hnosave, hfin, Bind.bind, Except.bind, Pure.pure,
      Except.pure]
  · intro d hfin hsub
    simp [ha, hmem, hvalid, hnosave, hfin, hsub, Bind.bind, Except.bind,
      Pure.pure, Except.pure]

/-- Witness for C5: the `finish` control and a task-decision control evaluated
on concrete requests. -/
theorem C5_witness :
    UpdateActivity.post (exEnv acceptAllForm true none) exReqFinish exKwargs =
      Except.ok ([Event.form_save, Event.instance_finish],
        Response.redirect (reverse_workflow_detail "leave")) ∧
    UpdateActivity.post (exEnv acceptAllForm true none) exReqSubmit exKwargs =
      Except.ok ([Event.form_save, Event.task_submit "leave" "alice" "Approved"],
        Response.redirect (reverse_workflow_detail "leave")) :=
  ⟨(C5_update_post_finish_or_decision (exEnv acceptAllForm true none) exReqFinish
      exKwargs "leave" (by decide) (by decide) (by decide) (by decide)).1
    (by decide),
   (C5_update_post_finish_or_decision (exEnv acceptAllForm true none) exReqSubmit
      exKwargs "leave" (by decide) (by decide) (by decide) (by decide)).2
    "Approved" (by decide) (by decide)⟩

/-- C6: for every Create-POST request with invalid form data, the handler
performs no collaborator call at all — so no ActivityInstance is persisted and
nothing is committed — and re-renders the create template with the non-empty
error-message list compiled from the form's field errors. -/
theorem C6_create_post_invalid (env : Env) (req : Request)
    (kwargs : List (String × String)) (a : String)
    (ha : kwargs.lookup "app_name" = some a)
    (hreg : env.apps.contains a = true)
    (hinvalid : (env.bindForm req.POST none).is_valid = false) :
    CreateActivity.post env req kwargs =
      Except.ok ([], Response.rendered "core/create.html"
        (get_errors (env.bindForm req.POST none).errors)) ∧
    committedEvents (CreateActivity.post env req kwargs) = [] ∧
    get_errors (env.bindForm req.POST none).errors ≠ [] := by
  have hmem : a ∈ env.apps := by simpa using hreg
  have hpost : CreateActivity.post env req kwargs =
      Except.ok ([], Response.rendered "core/create.html"
        (get_errors (env.bindForm req.POST none).errors)) := by
    unfold CreateActivity.post get_model get_form_instance get_request_params
    simp [ha, hmem, hinvalid, Bind.bind, Except.bind, Pure.pure, Except.pure]
  refine ⟨hpost, by rw [hpost]; rfl, ?_⟩
  have herr : (env.bindForm req.POST none).errors ≠ [] := by
    intro hnil
    rw [Form.is_valid, hnil] at hinvalid
    simp at hinvalid
  simp [get_errors, herr]

/-- Witness for C6: a rejecting schema evaluated on a concrete request. -/
theorem C6_witness :
    CreateActivity.post (exEnv rejectAllForm true none) exReq exKwargs =
      Except.ok ([], Response.rendered "core/create.html"
        ["reason: This field is required."]) ∧
    committedEvents
      (CreateActivity.post (exEnv rejectAllForm true none) exReq exKwargs) = [] :=
  ⟨(C6_create_post_invalid (exEnv rejectAllForm true none) exReq exKwargs "leave"
      (by decide) (by decide) (by decide)).1,
   (C6_create_post_invalid (exEnv rejectAllForm true none) exReq exKwargs "leave"
      (by decide) (by decide) (by decide)).2.1⟩

/-- C7: for every Rollback-POST request, `task.rollback()` runs before the
access-guard check and before any redirect — the trace of the single atomic
transaction is exactly rollback followed by the check, whatever the guard's
outcome — and when the guard allows, the response (produced after both) is
the redirect to the workflow detail page; when it denies, the denial is
returned but the rollback has still been performed and committed. -/
theorem C7_rollback_order (env : Env) (kwargs : List (String × String))
    (a : String)
    (ha : kwargs.lookup "app_name" = some a)
    (hreg : env.apps.contains a = true) :
    ∃ resp, RollBackActivity.post env kwargs =
        Except.ok ([Event.task_rollback, Event.check], resp) ∧
      committedEvents (RollBackActivity.post env kwargs) =
        [Event.task_rollback, Event.check] ∧
      (env.guard = none → resp = Response.redirect (reverse_workflow_detail a)) ∧
      (∀ d, env.guard = some d → resp = d) := by
  have hmem : a ∈ env.apps := by simpa using hreg
  cases hg : env.guard with
  | none =>
      refine ⟨Response.redirect (reverse_workflow_detail a), ?_, ?_, ?_, ?_⟩
      · unfold RollBackActivity.post get_model_instance get_model
          get_request_params
        simp [ha, hmem, hg, Bind.bind, Except.bind, Pure.pure, Except.pure]
      · unfold RollBackActivity.post get_model_instance get_model
          get_request_params
        simp [ha, hmem, hg, Bind.bind, Except.bind, Pure.pure, Except.pure,
          committedEvents]
      · intro _; rfl
      · intro d hd; cases hd
  | some d =>
      refine ⟨d, ?_, ?_, ?_, ?_⟩
      · unfold RollBackActivity.post get_model_instance get_model
          get_request_params
        simp [ha, hmem, hg, Bind.bind, Except.bind, Pure.pure, Except.pure]
      · unfold RollBackActivity.post get_model_instance get_model
          get_request_params
        simp [ha, hmem, hg, Bind.bind, Except.bind, Pure.pure, Except.pure,
          committedEvents]
      · intro hn; cases hn
      · intro e he; cases he; rfl

/-- Witness for C7: a concrete rollback request under a denying guard — the
rollback still commits, in first position, before the check. -/
theorem C7_witness :
    ∃ resp, RollBackActivity.post (exEnv acceptAllForm true
        (some deniedResponse)) exKwargs =
      Except.ok ([Event.task_rollback, Event.check], resp) :=
  match C7_rollback_order (exEnv acceptAllForm true (some deniedResponse))
      exKwargs "leave" (by decide) (by decide) with
  | ⟨resp, h, _, _, _⟩ => ⟨resp, h⟩

/-- C8: every handler reached with an `app_name` that is not registered in the
workflow configuration fails with the classified not-found fault — the
framework-level 404 — and never with any other (unclassified) error. -/
theorem C8_unregistered_not_found (env : Env) (req : Request)
    (kwargs : List (String × String)) (a : String)
    (ha : kwargs.lookup "app_name" = some a)
    (hreg : env.apps.contains a = false) :
    WorkflowDetail.get_context_data env kwargs = Except.error Fault.notFound ∧
    ViewActivity.dispatch env kwargs = Except.error Fault.notFound ∧
    RollBackActivity.post env kwargs = Except.error Fault.notFound ∧
    DeleteActivity.dispatch env kwargs = Except.error Fault.notFound ∧
    CreateActivity.get env kwargs = Except.error Fault.notFound ∧
    CreateActivity.post env req kwargs = Except.error Fault.notFound ∧
    UpdateActivity.get env kwargs = Except.error Fault.notFound ∧
    UpdateActivity.post env req kwargs = Except.error Fault.notFound := by
  have hmem : a ∉ env.apps := by simpa using hreg
  unfold WorkflowDetail.get_context_data ViewActivity.dispatch
    RollBackActivity.post DeleteActivity.dispatch CreateActivity.get
    CreateActivity.post UpdateActivity.get UpdateActivity.post
    get_model_instance get_model get_form_instance flow_config
    get_request_params
  simp [ha, hmem, Bind.bind, Except.bind, Pure.pure, Except.pure]

/-- Witness for C8: the application `payroll` is not registered; handlers
yield the not-found fault on a concrete request routed to it. -/
theorem C8_witness :
    CreateActivity.post (exEnv acceptAllForm true none) exReq
        [("app_name", "payroll")] = Except.error Fault.notFound ∧
    UpdateActivity.post (exEnv acceptAllForm true none) exReq
        [("app_name", "payroll")] = Except.error Fault.notFound ∧
    WorkflowDetail.get_context_data (exEnv acceptAllForm true none)
        [("app_name", "payroll")] = Except.error Fault.notFound :=
  ⟨(C8_unregistered_not_found (exEnv acceptAllForm true none) exReq
      [("app_name", "payroll")] "payroll" (by decide) (by decide)).2.2.2.2.2.1,
   (C8_unregistered_not_found (exEnv acceptAllForm true none) exReq
      [("app_name", "payroll")] "payroll" (by decide) (by decide)).2.2.2.2.2.2.2,
   (C8_unregistered_not_found (exEnv acceptAllForm true none) exReq
      [("app_name", "payroll")] "payroll" (by decide) (by decide)).1⟩

/-- C9: for every Update-POST request with valid form data whose POST body
contains both the `save` and the `finish` control keys, the `save` branch
takes precedence: the committed trace is exactly `form.save()` then
`instance.update()` — so `instance.finish()` and `task.submit` never run —
and the response redirects back to the same instance's Update URL. -/
theorem C9_save_wins_over_finish (env : Env) (req : Request)
    (kwargs : List (String × String)) (a : String)
    (ha : kwargs.lookup "app_name" = some a)
    (hreg : env.apps.contains a = true)
    (hvalid : (env.bindForm req.POST (some env.inst)).is_valid = true)
    (hsave : (req.POST.lookup "save").isSome = true)
    (hfinish : (req.POST.lookup "finish").isSome = true) :
    UpdateActivity.post env req kwargs =
      Except.ok ([Event.form_save, Event.instance_update],
        Response.redirect (reverse_update a env.inst.title env.inst.id)) ∧
    Event.instance_finish ∉ committedEvents (UpdateActivity.post env req kwargs) ∧
    ∀ t u d, Event.task_submit t u d ∉
      committedEvents (UpdateActivity.post env req kwargs) := by
  have h := update_post_save_eq env req kwargs a ha hreg hvalid hsave
  refine ⟨h, ?_, ?_⟩
  · rw [h]
    simp [committedEvents]
  · intro t u d
    rw [h]
    simp [committedEvents]

/-- Witness for C9: a concrete request carrying both controls. -/
theorem C9_witness :
    UpdateActivity.post (exEnv acceptAllForm true none) exReqSaveFinish exKwargs =
      Except.ok ([Event.form_save, Event.instance_update],
        Response.redirect (reverse_update "leave" "LeaveApproval" 42)) ∧
    Event.instance_finish ∉ committedEvents
      (UpdateActivity.post (exEnv acceptAllForm true none) exReqSaveFinish
        exKwargs) :=
  ⟨(C9_save_wins_over_finish (exEnv acceptAllForm true none) exReqSaveFinish
      exKwargs "leave" (by decide) (by decide) (by decide) (by decide)
      (by decide)).1,
   (C9_save_wins_over_finish (exEnv acceptAllForm true none) exReqSaveFinish
      exKwargs "leave" (by decide) (by decide) (by decide) (by decide)
      (by decide)).2.1⟩

/-- C10: for every Update-POST request with valid form data whose POST body
contains none of the keys `save`, `finish`, or `submit`, reading the decision
value from `request.POST['submit']` raises an unhandled missing-key error, so
the handler faults instead of returning a response. -/
theorem C10_missing_submit_key (env : Env) (req : Request)
    (kwargs : List (String × String)) (a : String)
    (ha : kwargs.lookup "app_name" = some a)
    (hreg : env.apps.contains a = true)
    (hvalid : (env.bindForm req.POST (some env.inst)).is_valid = true)
    (h1 : req.POST.lookup "save" = none)
    (h2 : req.POST.lookup "finish" = none)
    (h3 : req.POST.lookup "submit" = none) :
    UpdateActivity.post env req kwargs = Except.error (Fault.missingKey "submit") := by
  have hmem : a ∈ env.apps := by simpa using hreg
  unfold UpdateActivity.post get_model_instance get_model get_form_instance
    get_request_params
  simp [ha, hmem, hvalid, h1, h2, h3, Bind.bind, Except.bind, Pure.pure,
    Except.pure]

/-- Witness for C10: a concrete valid request with no recognised control. -/
theorem C10_witness :
    UpdateActivity.post (exEnv acceptAllForm true none) exReq exKwargs =
      Except.error (Fault.missingKey "submit") :=
  C10_missing_submit_key (exEnv acceptAllForm true none) exReq exKwargs "leave"
    (by decide) (by decide) (by decide) (by decide) (by decide) (by decide)
